import Mathlib

/-!
Shallow embedding of the chat moderation plugin
(chat_moderation_plugin.py and moderation_api.py).

Modelling conventions:
- Timestamps and durations are integers (both the time.time clock and the
  datetime clock of the source are modelled by a single argument now that is
  passed to every time-reading operation).
- The user map is modelled as a total function from user id to UserStatus;
  the lazy creation performed by get_user_status returns a record identical
  to the default one, so lookups of never-seen users agree with the source.
- Logging calls are pure side effects with no influence on program state and
  are dropped.  The reason and moderator arguments of actions only feed the
  log, so they are dropped as well.
- Fractional comparisons of the source (unique/total < 0.3 and
  caps/len*100 > max) are rendered with exact integer arithmetic,
  cross-multiplying by the positive denominators.
- Characters are treated with the ASCII semantics of Char.isUpper,
  Char.isWhitespace, Char.isAlphanum; the source uses the same semantics on
  ASCII inputs.
- An uncaught Python exception (KeyError) is modelled by Option.none at the
  API layer.
-/

namespace ChatMod

/-- ModerationAction enum of chat_moderation_plugin.py. -/
inductive ModerationAction where
  | warn
  | mute
  | kick
  | ban
  | delete_message
deriving DecidableEq, Fintype

/-- The string value carried by each ModerationAction enum member. -/
def ModerationAction.value : ModerationAction → String
  | .warn => "warn"
  | .mute => "mute"
  | .kick => "kick"
  | .ban => "ban"
  | .delete_message => "delete_message"

/-- ModerationAction(s): look an action up by its string value; none models
the ValueError raised for a string that is not a member value. -/
def moderation_action_of_string (s : String) : Option ModerationAction :=
  if s = "warn" then some .warn
  else if s = "mute" then some .mute
  else if s = "kick" then some .kick
  else if s = "ban" then some .ban
  else if s = "delete_message" then some .delete_message
  else none

/-- ViolationType enum of chat_moderation_plugin.py. -/
inductive ViolationType where
  | profanity
  | spam
  | rate_limit
  | caps_abuse
  | repetitive
  | inappropriate_content
deriving DecidableEq, Fintype

/-- The string value carried by each ViolationType enum member. -/
def ViolationType.value : ViolationType → String
  | .profanity => "profanity"
  | .spam => "spam"
  | .rate_limit => "rate_limit"
  | .caps_abuse => "caps_abuse"
  | .repetitive => "repetitive"
  | .inappropriate_content => "inappropriate_content"

/-- The optional whitelist section of the configuration dictionary.  Both
keys are optional: reading an absent key raises KeyError in the source, which
surfaces as Option.none in has_bypass_permission below. -/
structure WhitelistSection where
  enabled : Option Bool := none
  moderator_roles : Option (List String) := none
  bypass_users : Option (List String) := none
deriving DecidableEq

/-- The configuration dictionary, restricted to the keys the program reads.
Field names follow the nested keys rules.<rule>.<key> and
escalation.<key>.  The whitelist key is absent (none) in the built-in
default configuration. -/
structure Config where
  profanity_filter_enabled : Bool
  spam_detection_enabled : Bool
  rate_limiting_enabled : Bool
  rate_limiting_max_messages_per_minute : Nat
  caps_abuse_enabled : Bool
  caps_abuse_max_caps_percentage : Nat
  caps_abuse_min_message_length : Nat
  escalation_enabled : Bool
  escalation_warn_to_mute_threshold : Nat
  escalation_mute_to_kick_threshold : Nat
  escalation_kick_to_ban_threshold : Nat
  whitelist : Option WhitelistSection := none
deriving DecidableEq

/-- The default_config dictionary built in load_config; it defines no
whitelist key. -/
def default_config : Config where
  profanity_filter_enabled := true
  spam_detection_enabled := true
  rate_limiting_enabled := true
  rate_limiting_max_messages_per_minute := 10
  caps_abuse_enabled := true
  caps_abuse_max_caps_percentage := 70
  caps_abuse_min_message_length := 10
  escalation_enabled := true
  escalation_warn_to_mute_threshold := 3
  escalation_mute_to_kick_threshold := 2
  escalation_kick_to_ban_threshold := 2
  whitelist := none

/-- UserStatus dataclass: per-user mutable record. -/
structure UserStatus where
  user_id : String
  is_muted : Bool := false
  is_banned : Bool := false
  mute_until : Option Int := none
  ban_until : Option Int := none
  violation_count : Nat := 0
  last_message_time : Int := 0
  recent_messages : List String := []
deriving DecidableEq

/-- UserViolation dataclass: one appended record of the violation log. -/
structure UserViolation where
  user_id : String
  violation_type : ViolationType
  message : String
  timestamp : Int
  action_taken : ModerationAction
  moderator : Option String := none
deriving DecidableEq

/-- The mutable state of a ChatModerationPlugin instance: the user map, the
append-only violation log and the configuration. -/
structure PluginState where
  users : String → UserStatus
  violations : List UserViolation
  config : Config

/-- The freshly created UserStatus(user_id=user_id) record. -/
def freshUser (uid : String) : UserStatus := { user_id := uid }

/-- get_user_status: the user map is total in this embedding, so lookup
returns the lazily created default record for never-seen users. -/
def getUser (s : PluginState) (uid : String) : UserStatus := s.users uid

/-- Point update of the user map at one user id. -/
def updateUser (s : PluginState) (uid : String) (f : UserStatus → UserStatus) :
    PluginState :=
  { s with users := fun u => if u = uid then f (s.users u) else s.users u }

/-- The plugin state right after construction with no configuration file:
no users, no violations, default configuration. -/
def initial_state : PluginState where
  users := freshUser
  violations := []
  config := default_config

/-! ### Profanity detector

load_profanity_filter compiles, for every word w of the block list, the
pattern \b w' \b with re.IGNORECASE, where w' replaces a by [a@], e by [e3],
i by [i1] and o by [o0].  The matcher below reproduces re search semantics
for these patterns: a word character is an ASCII alphanumeric or underscore,
and \b holds at a position where exactly one side is a word character. -/

/-- The built-in profanity word set (a Python set; order is irrelevant
because only emptiness of the union of matches is used). -/
def profanity_words : List String :=
  ["damn", "shit", "fuck", "bitch", "asshole", "bastard",
   "crap", "piss", "hell", "ass", "slut", "whore"]

/-- Word character in the sense of the regex escape for word boundaries. -/
def isWordChar (c : Char) : Bool := c.isAlphanum || c = '_'

/-- One pattern character of a compiled profanity word matched against one
message character, case-insensitively, with the leetspeak character classes
[a@] [e3] [i1] [o0]. -/
def leetCharMatch (p c : Char) : Bool :=
  if p = 'a' then c.toLower = 'a' || c = '@'
  else if p = 'e' then c.toLower = 'e' || c = '3'
  else if p = 'i' then c.toLower = 'i' || c = '1'
  else if p = 'o' then c.toLower = 'o' || c = '0'
  else c.toLower = p.toLower

/-- Whether position i of the message holds a word character (out of range
counts as not a word character). -/
def wordCharAt (cs : List Char) (i : Nat) : Bool :=
  match cs.drop i with
  | [] => false
  | c :: _ => isWordChar c

/-- Whether the position left of position i holds a word character. -/
def prevWordCharAt (cs : List Char) (i : Nat) : Bool :=
  match i with
  | 0 => false
  | j + 1 => wordCharAt cs j

/-- The regex word boundary: exactly one of the two neighbouring positions
holds a word character. -/
def boundaryAt (cs : List Char) (i : Nat) : Bool :=
  prevWordCharAt cs i != wordCharAt cs i

/-- The compiled pattern characters ws match the message characters starting
at position i. -/
def leetMatchesAt (cs : List Char) (i : Nat) : List Char → Bool
  | [] => true
  | p :: ps =>
    match cs.drop i with
    | [] => false
    | c :: _ => leetCharMatch p c && leetMatchesAt cs (i + 1) ps

/-- re search for the compiled pattern \b ws \b: some start position gives a
boundary, a full leetspeak match, and a closing boundary. -/
def patternSearch (cs : List Char) (ws : List Char) : Bool :=
  (List.range (cs.length + 1)).any fun i =>
    boundaryAt cs i && leetMatchesAt cs i ws && boundaryAt cs (i + ws.length)

/-- Whether any compiled profanity pattern matches somewhere in the message
(findall returns a nonempty list for some pattern). -/
def profanityFound (message : String) : Bool :=
  profanity_words.any fun w => patternSearch message.data w.data

/-- check_profanity, reduced to its boolean component (the returned word
list is only interpolated into a log line by the caller). -/
def check_profanity (cfg : Config) (message : String) : Bool :=
  if !cfg.profanity_filter_enabled then false
  else profanityFound message

/-! ### Spam detector -/

/-- Python str.split with no separator: split on runs of whitespace,
dropping empty tokens.  The accumulator holds the current token reversed. -/
def pyWordsAux : List Char → List Char → List String
  | [], acc => if acc.isEmpty then [] else [String.mk acc.reverse]
  | c :: cs, acc =>
    if c.isWhitespace then
      if acc.isEmpty then pyWordsAux cs []
      else String.mk acc.reverse :: pyWordsAux cs []
    else pyWordsAux cs (c :: acc)

/-- message.split(): the whitespace-delimited tokens of the message. -/
def pyWords (message : String) : List String := pyWordsAux message.data []

/-- Keep-first deduplication; its length is the size of set(words). -/
def dedupKeepFirst (seen : List String) : List String → List String
  | [] => []
  | x :: xs =>
    if x ∈ seen then dedupKeepFirst seen xs
    else x :: dedupKeepFirst (x :: seen) xs

/-- len(set(words)): the number of distinct tokens. -/
def distinctCount (words : List String) : Nat :=
  (dedupKeepFirst [] words).length

/-- check_spam.  The comparison len(unique)/len(words) < 0.3 is rendered
exactly as 10 * unique < 3 * total (total > 3 > 0 in that branch). -/
def check_spam (s : PluginState) (user_id message : String) : Bool :=
  if !s.config.spam_detection_enabled then false
  else
    let user := getUser s user_id
    if message ∈ user.recent_messages then true
    else
      let words := pyWords message
      if 3 < words.length ∧ 10 * distinctCount words < 3 * words.length then true
      else if words.length ≤ 3 ∧ distinctCount words = 1 ∧ 1 < words.length then true
      else false

/-! ### Rate-limit detector -/

/-- check_rate_limit: history length reaching the per-minute maximum while
the last accepted message is less than 60 seconds old. -/
def check_rate_limit (s : PluginState) (user_id : String) (now : Int) : Bool :=
  if !s.config.rate_limiting_enabled then false
  else
    let user := getUser s user_id
    if s.config.rate_limiting_max_messages_per_minute ≤ user.recent_messages.length then
      decide (now - user.last_message_time < 60)
    else false

/-! ### Caps-abuse detector -/

/-- sum(1 for c in message if c.isupper()). -/
def capsCount (message : String) : Nat :=
  message.data.countP fun c => c.isUpper

/-- check_caps_abuse.  The comparison (caps/len)*100 > max is rendered
exactly as 100 * caps > max * len (len ≥ min there). -/
def check_caps_abuse (cfg : Config) (message : String) : Bool :=
  if !cfg.caps_abuse_enabled then false
  else if message.length < cfg.caps_abuse_min_message_length then false
  else decide (cfg.caps_abuse_max_caps_percentage * message.length
                < 100 * capsCount message)

/-! ### Actions, violation log and escalation -/

/-- apply_moderation_action: mute and ban set their flag together with the
absolute expiry now + duration; kick and warn (and delete_message, which
matches no branch) only log.  The try block always succeeds, so the boolean
result is always true. -/
def apply_moderation_action (s : PluginState) (user_id : String)
    (action : ModerationAction) (duration : Int) (now : Int) :
    Bool × PluginState :=
  match action with
  | .mute =>
    (true, updateUser s user_id fun u =>
      { u with is_muted := true, mute_until := some (now + duration) })
  | .ban =>
    (true, updateUser s user_id fun u =>
      { u with is_banned := true, ban_until := some (now + duration) })
  | .kick => (true, s)
  | .warn => (true, s)
  | .delete_message => (true, s)

/-- The count of violations of one user inside the rolling 24-hour window
whose recorded action is the given one (the filters of check_escalation). -/
def countAction (vs : List UserViolation) (user_id : String) (now : Int)
    (a : ModerationAction) : Nat :=
  (vs.filter fun v =>
    v.user_id = user_id ∧ now - 86400 < v.timestamp ∧ v.action_taken = a).length

/-- check_escalation: a priority chain on the per-action counts of the
24-hour window; first match wins. -/
def check_escalation (s : PluginState) (user_id : String) (now : Int) :
    PluginState :=
  let warn_count := countAction s.violations user_id now .warn
  let mute_count := countAction s.violations user_id now .mute
  let kick_count := countAction s.violations user_id now .kick
  if s.config.escalation_warn_to_mute_threshold ≤ warn_count then
    (apply_moderation_action s user_id .mute 300 now).2
  else if s.config.escalation_mute_to_kick_threshold ≤ mute_count then
    (apply_moderation_action s user_id .kick 300 now).2
  else if s.config.escalation_kick_to_ban_threshold ≤ kick_count then
    (apply_moderation_action s user_id .ban 3600 now).2
  else s

/-- record_violation: append to the violation log, bump the violation
counter of the user, then run escalation when it is enabled. -/
def record_violation (s : PluginState) (user_id : String)
    (violation_type : ViolationType) (message : String)
    (action_taken : ModerationAction) (now : Int) : PluginState :=
  let v : UserViolation :=
    { user_id := user_id, violation_type := violation_type,
      message := message, timestamp := now, action_taken := action_taken }
  let s1 : PluginState := { s with violations := s.violations ++ [v] }
  let s2 := updateUser s1 user_id fun u =>
    { u with violation_count := u.violation_count + 1 }
  if s2.config.escalation_enabled then check_escalation s2 user_id now else s2

/-! ### The moderation pipeline -/

/-- The result dictionary of moderate_message (and of the API bypass path).
Keys that a given return site does not emit keep their default. -/
structure Decision where
  allowed : Bool
  action : Option String := none
  reason : Option String := none
  ban_until : Option Int := none
  mute_until : Option Int := none
  violations : List ViolationType := []
  actions_taken : List String := []
  user_status : Option UserStatus := none
deriving DecidableEq

/-- The truthiness test user.flag and user.until and now < user.until in
the punishment gate (a datetime is always truthy, None is falsy). -/
def punishment_active (flag : Bool) (untilTime : Option Int) (now : Int) :
    Bool :=
  flag && match untilTime with
    | some t => decide (now < t)
    | none => false

/-- Accumulator of the detection pass: the violations and actions_taken
lists of the result under construction, and the threaded plugin state. -/
structure DetAcc where
  violations : List ViolationType
  actions_taken : List String
  st : PluginState

/-- One positive-detection block of moderate_message: when the condition
holds, append the violation type, apply the rule action, record the
violation (which may escalate), and append the action string tag. -/
def detection_branch (a : DetAcc) (cond : Bool) (vt : ViolationType)
    (act : ModerationAction) (tag : String) (duration : Int)
    (user_id message : String) (now : Int) : DetAcc :=
  if cond then
    { violations := a.violations ++ [vt],
      actions_taken := a.actions_taken ++ [tag],
      st := record_violation
              (apply_moderation_action a.st user_id act duration now).2
              user_id vt message act now }
  else a

/-- The four detection blocks of moderate_message in source order:
profanity, spam (gated by nonempty history), rate limit (gated by history
length at least 3), caps abuse.  Conditions on history read the threaded
state, which is what the live user object of the source holds at that
point. -/
def run_detections (s : PluginState) (user_id message : String) (now : Int) :
    DetAcc :=
  let a0 : DetAcc := ⟨[], [], s⟩
  let a1 := detection_branch a0 (check_profanity s.config message)
    .profanity .warn "warn" 300 user_id message now
  let a2 := detection_branch a1
    (decide (0 < (getUser a1.st user_id).recent_messages.length) &&
      check_spam a1.st user_id message)
    .spam .mute "mute" 300 user_id message now
  let a3 := detection_branch a2
    (decide (3 ≤ (getUser a2.st user_id).recent_messages.length) &&
      check_rate_limit a2.st user_id now)
    .rate_limit .mute "mute" 60 user_id message now
  detection_branch a3 (check_caps_abuse s.config message)
    .caps_abuse .warn "warn" 300 user_id message now

/-- The history update of moderate_message: set last_message_time, append
the raw message, and pop the oldest entry when the buffer exceeds 10. -/
def history_update (message : String) (now : Int) (u : UserStatus) :
    UserStatus :=
  let rm := u.recent_messages ++ [message]
  { u with last_message_time := now,
           recent_messages := if 10 < rm.length then rm.tail else rm }

/-- The tail of moderate_message past the punishment gates: detection pass,
history update (after detection), and the allow decision. -/
def moderate_detect_phase (s : PluginState) (user_id message : String)
    (now : Int) : Decision × PluginState :=
  let a := run_detections s user_id message now
  let s5 := updateUser a.st user_id (history_update message now)
  let should_delete := a.violations.any fun v =>
    v = ViolationType.profanity || v = ViolationType.spam
  let allowed := a.violations.isEmpty || !should_delete
  ({ allowed := allowed, violations := a.violations,
     actions_taken := a.actions_taken,
     user_status := some (getUser s5 user_id) }, s5)

/-- moderate_message: the two punishment gates followed by the detection
phase. -/
def moderate_message (s : PluginState) (user_id message : String)
    (now : Int) : Decision × PluginState :=
  let user := getUser s user_id
  if punishment_active user.is_banned user.ban_until now then
    ({ allowed := false, action := some "rejected",
       reason := some "User is banned", ban_until := user.ban_until }, s)
  else if punishment_active user.is_muted user.mute_until now then
    ({ allowed := false, action := some "rejected",
       reason := some "User is muted", mute_until := user.mute_until }, s)
  else moderate_detect_phase s user_id message now

/-- The truthiness test user.until and current_time >= user.until of the
sweeper (None is falsy). -/
def expiry_reached (untilTime : Option Int) (now : Int) : Bool :=
  match untilTime with
  | some t => decide (t ≤ now)
  | none => false

/-- cleanup_expired_punishments on one user record: clear an expired mute,
then clear an expired ban, each flag atomically with its expiry. -/
def clean_user (u : UserStatus) (now : Int) : UserStatus :=
  let u1 :=
    if u.is_muted && expiry_reached u.mute_until now then
      { u with is_muted := false, mute_until := none }
    else u
  if u1.is_banned && expiry_reached u1.ban_until now then
    { u1 with is_banned := false, ban_until := none }
  else u1

/-- cleanup_expired_punishments: sweep every tracked user. -/
def cleanup_expired_punishments (s : PluginState) (now : Int) : PluginState :=
  { s with users := fun uid => clean_user (s.users uid) now }

/-! ### The API layer (moderation_api.py) -/

/-- _has_bypass_permission.  Option.none models the KeyError raised when the
whitelist section, or a key the code path reads inside it, is absent; the
enabled key is read first, and a falsy enabled short-circuits before
moderator_roles is read. -/
def has_bypass_permission (cfg : Config) (user_roles : List String) :
    Option Bool :=
  match cfg.whitelist with
  | none => none
  | some w =>
    match w.enabled with
    | none => none
    | some e =>
      if !e then some false
      else
        match w.moderator_roles with
        | none => none
        | some mrs => some (user_roles.any fun role => mrs.contains role)

/-- ModerationAPI.moderate_message: evaluate the bypass test only for a
truthy (nonempty) role list; a bypass returns the fixed allowed dictionary
without touching the plugin; otherwise delegate to the plugin.  Option.none
models an uncaught KeyError escaping from the bypass test. -/
def api_moderate_message (s : PluginState) (user_id message : String)
    (user_roles : List String) (now : Int) :
    Option (Decision × PluginState) :=
  if user_roles.isEmpty then some (moderate_message s user_id message now)
  else
    match has_bypass_permission s.config user_roles with
    | none => none
    | some true =>
      some ({ allowed := true, reason := some "User has bypass permissions" }, s)
    | some false => some (moderate_message s user_id message now)

/-- The dictionary returned by ModerationAPI.get_user_status. -/
structure UserStatusView where
  user_id : String
  is_muted : Bool
  is_banned : Bool
  mute_until : Option Int
  ban_until : Option Int
  violation_count : Nat
deriving DecidableEq

/-- ModerationAPI.get_user_status: a read-only projection of the record. -/
def api_get_user_status (s : PluginState) (user_id : String) :
    UserStatusView :=
  let u := getUser s user_id
  { user_id := u.user_id, is_muted := u.is_muted, is_banned := u.is_banned,
    mute_until := u.mute_until, ban_until := u.ban_until,
    violation_count := u.violation_count }

/-- ModerationAPI.apply_manual_action: parse the action string through the
enum constructor; a ValueError (no such member value) is caught and
reported as false with nothing executed, otherwise the plugin applies the
action (the moderator id only feeds the log). -/
def apply_manual_action (s : PluginState) (user_id action : String)
    (duration : Int) (now : Int) : Bool × PluginState :=
  match moderation_action_of_string action with
  | none => (false, s)
  | some a => apply_moderation_action s user_id a duration now

/-! ### Auxiliary predicates and concrete scenario states used by the
verification below -/

/-- Invariant carried through the four detection blocks: the configuration
is untouched, the 24-hour warn count of the user never drops below the
escalation threshold, and once some violation has been collected the user
is muted (because every record_violation call escalated). -/
def detInv (cfg : Config) (uid : String) (now : Int) (a : DetAcc) : Prop :=
  a.st.config = cfg ∧
  cfg.escalation_warn_to_mute_threshold ≤
    countAction a.st.violations uid now ModerationAction.warn ∧
  (a.violations ≠ [] → (a.st.users uid).is_muted = true)

/-- A user banned at time 0 for 3600 seconds through the manual API. -/
def banned_state : PluginState :=
  (apply_manual_action initial_state "b1" "ban" 3600 0).2

/-- A user muted at time 0 for 300 seconds through the manual API. -/
def muted_state : PluginState :=
  (apply_manual_action initial_state "m1" "mute" 300 0).2

/-- A user muted until 50 and banned until 60 through the manual API; both
punishments are expired at time 100. -/
def expired_state : PluginState :=
  (apply_manual_action
    (apply_manual_action initial_state "bob" "mute" 50 0).2 "bob" "ban" 60 0).2

/-- Three warn violations for alice accrued through three profane messages
at times 0, 1 and 2; the third call escalates to a mute until 302, which is
expired by time 400. -/
def esc_state : PluginState :=
  (moderate_message
    (moderate_message
      (moderate_message initial_state "alice" "damn a" 0).2
      "alice" "damn b" 1).2
    "alice" "damn c" 2).2

/-- A user whose recent-message history already holds the token hello. -/
def spam_hist_state : PluginState :=
  { initial_state with
    users := fun uid =>
      if uid = "u" then { freshUser "u" with recent_messages := ["hello"] }
      else freshUser uid }

/-! ## Helper lemmas -/

theorem getUser_updateUser_self (s : PluginState) (uid : String)
    (f : UserStatus → UserStatus) :
    (updateUser s uid f).users uid = f (s.users uid) := by
  simp [updateUser]

theorem updateUser_violations (s : PluginState) (uid : String)
    (f : UserStatus → UserStatus) :
    (updateUser s uid f).violations = s.violations := rfl

theorem updateUser_config (s : PluginState) (uid : String)
    (f : UserStatus → UserStatus) :
    (updateUser s uid f).config = s.config := rfl

theorem apply_action_config (s : PluginState) (uid : String)
    (a : ModerationAction) (d now : Int) :
    ((apply_moderation_action s uid a d now).2).config = s.config := by
  cases a <;> rfl

theorem apply_action_violations (s : PluginState) (uid : String)
    (a : ModerationAction) (d now : Int) :
    ((apply_moderation_action s uid a d now).2).violations = s.violations := by
  cases a <;> rfl

theorem apply_action_mute_users_self (s : PluginState) (uid : String)
    (d now : Int) :
    ((apply_moderation_action s uid ModerationAction.mute d now).2).users uid =
      { s.users uid with is_muted := true, mute_until := some (now + d) } := by
  simp [apply_moderation_action, getUser_updateUser_self]

theorem apply_action_is_muted_mono (s : PluginState) (uid uid2 : String)
    (a : ModerationAction) (d now : Int)
    (h : (s.users uid2).is_muted = true) :
    (((apply_moderation_action s uid a d now).2).users uid2).is_muted = true := by
  cases a <;> simp [apply_moderation_action, updateUser] <;>
    first
      | exact h
      | (split_ifs <;> simp [h])

theorem countAction_append_le (vs : List UserViolation) (v : UserViolation)
    (uid : String) (now : Int) (a : ModerationAction) :
    countAction vs uid now a ≤ countAction (vs ++ [v]) uid now a := by
  simp only [countAction, List.filter_append, List.length_append]
  exact Nat.le_add_right _ _

theorem check_escalation_config (s : PluginState) (uid : String) (now : Int) :
    (check_escalation s uid now).config = s.config := by
  simp only [check_escalation]
  split_ifs <;> simp [apply_action_config]

theorem check_escalation_violations (s : PluginState) (uid : String)
    (now : Int) :
    (check_escalation s uid now).violations = s.violations := by
  simp only [check_escalation]
  split_ifs <;> simp [apply_action_violations]

theorem check_escalation_is_muted_mono (s : PluginState) (uid uid2 : String)
    (now : Int) (h : (s.users uid2).is_muted = true) :
    ((check_escalation s uid now).users uid2).is_muted = true := by
  simp only [check_escalation]
  split_ifs <;> first
    | exact apply_action_is_muted_mono _ _ _ _ _ _ h
    | exact h

theorem check_escalation_mutes (s : PluginState) (uid : String) (now : Int)
    (h : s.config.escalation_warn_to_mute_threshold ≤
      countAction s.violations uid now ModerationAction.warn) :
    ((check_escalation s uid now).users uid).is_muted = true := by
  simp only [check_escalation]
  rw [if_pos h, apply_action_mute_users_self]

theorem record_violation_config (s : PluginState) (uid : String)
    (vt : ViolationType) (msg : String) (act : ModerationAction) (now : Int) :
    (record_violation s uid vt msg act now).config = s.config := by
  simp only [record_violation]
  split_ifs <;> simp [check_escalation_config, updateUser_config]

theorem record_violation_violations (s : PluginState) (uid : String)
    (vt : ViolationType) (msg : String) (act : ModerationAction) (now : Int) :
    (record_violation s uid vt msg act now).violations =
      s.violations ++
        [{ user_id := uid, violation_type := vt, message := msg,
           timestamp := now, action_taken := act }] := by
  simp only [record_violation]
  split_ifs <;> simp [check_escalation_violations, updateUser_violations]

theorem updateUser_count_is_muted_mono (s : PluginState) (uid uid2 : String)
    (h : (s.users uid2).is_muted = true) :
    ((updateUser s uid fun u =>
      { u with violation_count := u.violation_count + 1 }).users uid2).is_muted
      = true := by
  simp only [updateUser]
  split_ifs <;> simp [h]

theorem record_violation_is_muted_mono (s : PluginState) (uid uid2 : String)
    (vt : ViolationType) (msg : String) (act : ModerationAction) (now : Int)
    (h : (s.users uid2).is_muted = true) :
    ((record_violation s uid vt msg act now).users uid2).is_muted = true := by
  simp only [record_violation]
  split_ifs
  · exact check_escalation_is_muted_mono _ _ _ _
      (updateUser_count_is_muted_mono _ _ _ h)
  · exact updateUser_count_is_muted_mono _ _ _ h

theorem record_violation_mutes (s : PluginState) (uid : String)
    (vt : ViolationType) (msg : String) (act : ModerationAction) (now : Int)
    (hesc : s.config.escalation_enabled = true)
    (hw : s.config.escalation_warn_to_mute_threshold ≤
      countAction s.violations uid now ModerationAction.warn) :
    ((record_violation s uid vt msg act now).users uid).is_muted = true := by
  simp only [record_violation]
  rw [if_pos]
  · apply check_escalation_mutes
    rw [updateUser_config, updateUser_violations]
    exact le_trans hw (countAction_append_le _ _ _ _ _)
  · rw [updateUser_config]
    exact hesc

theorem detInv_detection_branch (cfg : Config) (uid msg : String) (now : Int)
    (hesc : cfg.escalation_enabled = true) (a : DetAcc) (c : Bool)
    (vt : ViolationType) (act : ModerationAction) (tag : String) (d : Int)
    (h : detInv cfg uid now a) :
    detInv cfg uid now (detection_branch a c vt act tag d uid msg now) := by
  obtain ⟨hc, hw, hm⟩ := h
  cases c
  · simpa [detection_branch] using ⟨hc, hw, hm⟩
  · simp only [detection_branch, if_pos]
    refine ⟨?_, ?_, ?_⟩
    · rw [record_violation_config, apply_action_config]
      exact hc
    · rw [record_violation_violations, apply_action_violations]
      exact le_trans hw (countAction_append_le _ _ _ _ _)
    · intro _
      apply record_violation_mutes
      · rw [apply_action_config, hc]
        exact hesc
      · rw [apply_action_config, apply_action_violations, hc]
        exact hw

theorem detection_branch_mem (a : DetAcc) (c : Bool) (vt : ViolationType)
    (act : ModerationAction) (tag : String) (d : Int)
    (uid msg : String) (now : Int) (v : ViolationType)
    (h : v ∈ a.violations) :
    v ∈ (detection_branch a c vt act tag d uid msg now).violations := by
  cases c <;> simp [detection_branch]
  · exact h
  · exact Or.inl h

theorem run_detections_detInv (s : PluginState) (uid msg : String)
    (now : Int) (hesc : s.config.escalation_enabled = true)
    (hw : s.config.escalation_warn_to_mute_threshold ≤
      countAction s.violations uid now ModerationAction.warn) :
    detInv s.config uid now (run_detections s uid msg now) := by
  have h0 : detInv s.config uid now ⟨[], [], s⟩ :=
    ⟨rfl, hw, by simp⟩
  simp only [run_detections]
  exact detInv_detection_branch _ _ _ _ hesc _ _ _ _ _ _
    (detInv_detection_branch _ _ _ _ hesc _ _ _ _ _ _
      (detInv_detection_branch _ _ _ _ hesc _ _ _ _ _ _
        (detInv_detection_branch _ _ _ _ hesc _ _ _ _ _ _ h0)))

theorem run_detections_profanity_mem (s : PluginState) (uid msg : String)
    (now : Int) (h : check_profanity s.config msg = true) :
    ViolationType.profanity ∈ (run_detections s uid msg now).violations := by
  simp only [run_detections]
  apply detection_branch_mem
  apply detection_branch_mem
  apply detection_branch_mem
  rw [h]
  simp [detection_branch]

theorem moderate_detect_phase_fst_violations (s : PluginState)
    (uid msg : String) (now : Int) :
    (moderate_detect_phase s uid msg now).1.violations =
      (run_detections s uid msg now).violations := rfl

theorem moderate_detect_phase_fst_allowed (s : PluginState)
    (uid msg : String) (now : Int) :
    (moderate_detect_phase s uid msg now).1.allowed =
      ((run_detections s uid msg now).violations.isEmpty ||
        !((run_detections s uid msg now).violations.any fun v =>
          v = ViolationType.profanity || v = ViolationType.spam)) := rfl

theorem moderate_detect_phase_fst_user_status (s : PluginState)
    (uid msg : String) (now : Int) :
    (moderate_detect_phase s uid msg now).1.user_status =
      some (getUser (moderate_detect_phase s uid msg now).2 uid) := rfl

theorem moderate_detect_phase_snd (s : PluginState) (uid msg : String)
    (now : Int) :
    (moderate_detect_phase s uid msg now).2 =
      updateUser (run_detections s uid msg now).st uid
        (history_update msg now) := rfl

theorem history_update_is_muted (msg : String) (now : Int) (u : UserStatus) :
    (history_update msg now u).is_muted = u.is_muted := rfl

theorem moderate_detect_phase_snd_is_muted (s : PluginState)
    (uid msg : String) (now : Int)
    (h : (((run_detections s uid msg now).st).users uid).is_muted = true) :
    (((moderate_detect_phase s uid msg now).2).users uid).is_muted = true := by
  rw [moderate_detect_phase_snd, getUser_updateUser_self,
    history_update_is_muted]
  exact h

theorem moderate_message_not_punished (s : PluginState) (uid msg : String)
    (now : Int)
    (hban : punishment_active (getUser s uid).is_banned
      (getUser s uid).ban_until now = false)
    (hmute : punishment_active (getUser s uid).is_muted
      (getUser s uid).mute_until now = false) :
    moderate_message s uid msg now = moderate_detect_phase s uid msg now := by
  simp [moderate_message, hban, hmute]

theorem any_profanity_or_spam_iff (l : List ViolationType) :
    ((l.any fun v => v = ViolationType.profanity || v = ViolationType.spam)
        = true) ↔
      (ViolationType.profanity ∈ l ∨ ViolationType.spam ∈ l) := by
  rw [List.any_eq_true]
  constructor
  · rintro ⟨v, hv, hd⟩
    rcases Bool.or_eq_true_iff.mp hd with h3 | h3
    · exact Or.inl (of_decide_eq_true h3 ▸ hv)
    · exact Or.inr (of_decide_eq_true h3 ▸ hv)
  · rintro (h | h)
    · exact ⟨_, h, by simp⟩
    · exact ⟨_, h, by simp⟩

theorem reject_iff (l : List ViolationType) :
    ((l.isEmpty ||
      !(l.any fun v => v = ViolationType.profanity || v = ViolationType.spam))
        = false) ↔
      (ViolationType.profanity ∈ l ∨ ViolationType.spam ∈ l) := by
  constructor
  · intro h
    obtain ⟨-, h2⟩ := Bool.or_eq_false_iff.mp h
    rw [Bool.not_eq_false'] at h2
    exact (any_profanity_or_spam_iff l).mp h2
  · intro h
    have hany := (any_profanity_or_spam_iff l).mpr h
    have hne : l ≠ [] := by
      rcases h with h | h <;> exact List.ne_nil_of_mem h
    rw [Bool.or_eq_false_iff]
    refine ⟨by simpa [List.isEmpty_iff] using hne, ?_⟩
    rw [hany]
    rfl

/-! ## Claim theorems -/

/-- C1: for every moderate_message call that passes the punishment gates
(the not-bypassed plugin path with no unexpired ban or mute), the decision
has allowed = false exactly when the detected violations contain Profanity
or Spam; when the violations are only Caps-Abuse or Rate-Limit or none,
allowed = true. -/
theorem allow_iff_profanity_or_spam (s : PluginState) (uid msg : String)
    (now : Int)
    (hban : punishment_active (getUser s uid).is_banned
      (getUser s uid).ban_until now = false)
    (hmute : punishment_active (getUser s uid).is_muted
      (getUser s uid).mute_until now = false) :
    ((moderate_message s uid msg now).1.allowed = false ↔
      (ViolationType.profanity ∈ (moderate_message s uid msg now).1.violations ∨
       ViolationType.spam ∈ (moderate_message s uid msg now).1.violations)) ∧
    ((∀ v ∈ (moderate_message s uid msg now).1.violations,
        v = ViolationType.caps_abuse ∨ v = ViolationType.rate_limit) →
      (moderate_message s uid msg now).1.allowed = true) := by
  rw [moderate_message_not_punished s uid msg now hban hmute]
  rw [moderate_detect_phase_fst_allowed, moderate_detect_phase_fst_violations]
  refine ⟨reject_iff _, ?_⟩
  intro honly
  cases hall : ((run_detections s uid msg now).violations.isEmpty ||
      !((run_detections s uid msg now).violations.any fun v =>
        v = ViolationType.profanity || v = ViolationType.spam))
  · rcases (reject_iff _).mp hall with h | h
    · rcases honly _ h with h2 | h2 <;> exact absurd h2 (by simp)
    · rcases honly _ h with h2 | h2 <;> exact absurd h2 (by simp)
  · rfl

/-- Witness for C1 at a concrete fresh-user call. -/
theorem allow_iff_profanity_or_spam_witness :
    (((moderate_message initial_state "u1" "Hello everyone!" 100).1.allowed
        = false) ↔
      (ViolationType.profanity ∈
        (moderate_message initial_state "u1" "Hello everyone!" 100).1.violations ∨
       ViolationType.spam ∈
        (moderate_message initial_state "u1" "Hello everyone!" 100).1.violations)) ∧
    ((∀ v ∈ (moderate_message initial_state "u1" "Hello everyone!" 100).1.violations,
        v = ViolationType.caps_abuse ∨ v = ViolationType.rate_limit) →
      (moderate_message initial_state "u1" "Hello everyone!" 100).1.allowed
        = true) :=
  allow_iff_profanity_or_spam initial_state "u1" "Hello everyone!" 100
    (by decide) (by decide)

/-- C2 counterexample: alice has three Warn violations within 24 hours in
esc_state and escalation is enabled with threshold 3; her next violation
(a profane message at time 400, when her previous escalation mute has
already expired) is processed, yet the returned actions_taken list does not
contain a mute tag: it only holds the warn of the profanity rule. -/
theorem escalation_missing_from_actions_taken :
    esc_state.config.escalation_enabled = true ∧
    3 ≤ countAction esc_state.violations "alice" 400 ModerationAction.warn ∧
    esc_state.config.escalation_warn_to_mute_threshold = 3 ∧
    (moderate_message esc_state "alice" "damn d" 400).1.violations ≠ [] ∧
    (moderate_message esc_state "alice" "damn d" 400).1.actions_taken
      = ["warn"] ∧
    "mute" ∉ (moderate_message esc_state "alice" "damn d" 400).1.actions_taken
    := by decide

/-- C2 (amended): with escalation enabled and at least
warnToMuteThreshold Warn violations of the user inside the 24-hour window,
the processing of any next detected violation applies a Mute to the user:
the post-call state and the user-status snapshot of the decision show the
user muted.  (The Mute action is applied directly to the user record; as
the counterexample shows, it is not appended to actionsTaken.) -/
theorem escalation_mutes_next_violation (s : PluginState) (uid msg : String)
    (now : Int)
    (hesc : s.config.escalation_enabled = true)
    (hw : s.config.escalation_warn_to_mute_threshold ≤
      countAction s.violations uid now ModerationAction.warn)
    (hban : punishment_active (getUser s uid).is_banned
      (getUser s uid).ban_until now = false)
    (hmute : punishment_active (getUser s uid).is_muted
      (getUser s uid).mute_until now = false)
    (hv : (moderate_message s uid msg now).1.violations ≠ []) :
    (((moderate_message s uid msg now).2).users uid).is_muted = true ∧
    ∃ u, (moderate_message s uid msg now).1.user_status = some u ∧
      u.is_muted = true := by
  rw [moderate_message_not_punished s uid msg now hban hmute] at hv ⊢
  rw [moderate_detect_phase_fst_violations] at hv
  have hinv := run_detections_detInv s uid msg now hesc hw
  have hmut : (((run_detections s uid msg now).st).users uid).is_muted = true :=
    hinv.2.2 hv
  have hfin := moderate_detect_phase_snd_is_muted s uid msg now hmut
  refine ⟨hfin, ⟨_, moderate_detect_phase_fst_user_status s uid msg now, ?_⟩⟩
  exact hfin

/-- Witness for C2 (amended) at the concrete escalation scenario. -/
theorem escalation_mutes_next_violation_witness :
    (((moderate_message esc_state "alice" "damn d" 400).2).users
      "alice").is_muted = true ∧
    ∃ u, (moderate_message esc_state "alice" "damn d" 400).1.user_status
      = some u ∧ u.is_muted = true :=
  escalation_mutes_next_violation esc_state "alice" "damn d" 400
    (by decide) (by decide) (by decide) (by decide) (by decide)

/-- C3: a message in which some configured profane term matches (case
insensitively, with the leetspeak classes and word-boundary anchoring),
moderated through the detection path with the profanity rule enabled,
yields Profanity among the violations and allowed = false. -/
theorem profanity_means_rejected (s : PluginState) (uid msg : String)
    (now : Int)
    (hen : s.config.profanity_filter_enabled = true)
    (hfound : profanityFound msg = true)
    (hban : punishment_active (getUser s uid).is_banned
      (getUser s uid).ban_until now = false)
    (hmute : punishment_active (getUser s uid).is_muted
      (getUser s uid).mute_until now = false) :
    ViolationType.profanity ∈ (moderate_message s uid msg now).1.violations ∧
    (moderate_message s uid msg now).1.allowed = false := by
  have hcp : check_profanity s.config msg = true := by
    simp [check_profanity, hen, hfound]
  rw [moderate_message_not_punished s uid msg now hban hmute]
  rw [moderate_detect_phase_fst_violations, moderate_detect_phase_fst_allowed]
  have hmem := run_detections_profanity_mem s uid msg now hcp
  exact ⟨hmem, (reject_iff _).mpr (Or.inl hmem)⟩

/-- Witness for C3 at the concrete message of the spec scenario. -/
theorem profanity_means_rejected_witness :
    ViolationType.profanity ∈
      (moderate_message initial_state "u3" "This is a damn test message"
        100).1.violations ∧
    (moderate_message initial_state "u3" "This is a damn test message"
      100).1.allowed = false :=
  profanity_means_rejected initial_state "u3" "This is a damn test message"
    100 (by decide) (by decide) (by decide) (by decide)

theorem parse_none_of_not_value (act : String)
    (h : ∀ a : ModerationAction, a.value ≠ act) :
    moderation_action_of_string act = none := by
  unfold moderation_action_of_string
  split_ifs with h1 h2 h3 h4 h5
  · exact absurd h1.symm (h .warn)
  · exact absurd h2.symm (h .mute)
  · exact absurd h3.symm (h .kick)
  · exact absurd h4.symm (h .ban)
  · exact absurd h5.symm (h .delete_message)
  · rfl

/-- C4: apply_manual_action with an action string that is no
ModerationAction value returns false and leaves the state untouched: the
result is exactly (false, s), so the punishment fields, the violation
count, the recent-message history, the violation log and the configuration
are all unchanged. -/
theorem invalid_action_false_no_change (s : PluginState) (uid act : String)
    (d now : Int) (h : ∀ a : ModerationAction, a.value ≠ act) :
    apply_manual_action s uid act d now = (false, s) := by
  unfold apply_manual_action
  rw [parse_none_of_not_value act h]

/-- Witness for C4 at a concrete unknown action string. -/
theorem invalid_action_false_no_change_witness :
    apply_manual_action initial_state "u4" "shadowban" 300 0
      = (false, initial_state) :=
  invalid_action_false_no_change initial_state "u4" "shadowban" 300 0
    (by decide)

/-- C5 counterexample: a mute of bob through the manual API followed by a
ban leaves bob simultaneously muted and banned, against the claimed mutual
exclusivity of the punishment variants; reachable through the public
operations alone. -/
theorem mute_then_ban_both_flags :
    (((apply_manual_action
        (apply_manual_action initial_state "bob" "mute" 300 100).2
        "bob" "ban" 3600 200).2).users "bob").is_muted = true ∧
    (((apply_manual_action
        (apply_manual_action initial_state "bob" "mute" 300 100).2
        "bob" "ban" 3600 200).2).users "bob").is_banned = true := by decide

/-- C5 (amended): the punishment state of a user is kept in two independent
flag/expiry pairs, each written atomically by apply_moderation_action: a
Mute sets is_muted together with mute_until and leaves the ban pair
untouched, a Ban sets is_banned together with ban_until and leaves the mute
pair untouched; consequently a mute followed by a ban leaves the user
simultaneously muted and banned. -/
theorem punishment_pairs_independent (s : PluginState) (uid : String)
    (d now : Int) :
    (((apply_moderation_action s uid ModerationAction.mute d now).2.users
        uid).is_muted = true ∧
     ((apply_moderation_action s uid ModerationAction.mute d now).2.users
        uid).mute_until = some (now + d) ∧
     ((apply_moderation_action s uid ModerationAction.mute d now).2.users
        uid).is_banned = (s.users uid).is_banned ∧
     ((apply_moderation_action s uid ModerationAction.mute d now).2.users
        uid).ban_until = (s.users uid).ban_until) ∧
    (((apply_moderation_action s uid ModerationAction.ban d now).2.users
        uid).is_banned = true ∧
     ((apply_moderation_action s uid ModerationAction.ban d now).2.users
        uid).ban_until = some (now + d) ∧
     ((apply_moderation_action s uid ModerationAction.ban d now).2.users
        uid).is_muted = (s.users uid).is_muted ∧
     ((apply_moderation_action s uid ModerationAction.ban d now).2.users
        uid).mute_until = (s.users uid).mute_until) := by
  simp [apply_moderation_action, updateUser]

/-- C6: a call under an unexpired ban is rejected with the banned reason
and the ban expiry, and a call under an unexpired mute (with no active ban)
is rejected with the muted reason and the mute expiry; in both cases the
returned state is exactly the input state, so no detector output, history
update, violation record or punishment change is produced. -/
theorem active_punishment_rejects_without_state_change (s : PluginState)
    (uid msg : String) (now : Int) :
    (punishment_active (getUser s uid).is_banned (getUser s uid).ban_until now
        = true →
      moderate_message s uid msg now =
        ({ allowed := false, action := some "rejected",
           reason := some "User is banned",
           ban_until := (getUser s uid).ban_until }, s)) ∧
    (punishment_active (getUser s uid).is_banned (getUser s uid).ban_until now
        = false →
     punishment_active (getUser s uid).is_muted (getUser s uid).mute_until now
        = true →
      moderate_message s uid msg now =
        ({ allowed := false, action := some "rejected",
           reason := some "User is muted",
           mute_until := (getUser s uid).mute_until }, s)) := by
  constructor
  · intro h
    simp [moderate_message, h]
  · intro h1 h2
    simp [moderate_message, h1, h2]

/-- Witness for C6 at a concrete banned state and a concrete muted state. -/
theorem active_punishment_rejects_witness :
    moderate_message banned_state "b1" "hello there" 100 =
      ({ allowed := false, action := some "rejected",
         reason := some "User is banned", ban_until := some 3600 },
       banned_state) ∧
    moderate_message muted_state "m1" "hello there" 100 =
      ({ allowed := false, action := some "rejected",
         reason := some "User is muted", mute_until := some 300 },
       muted_state) :=
  ⟨(active_punishment_rejects_without_state_change banned_state "b1"
      "hello there" 100).1 (by decide),
   (active_punishment_rejects_without_state_change muted_state "m1"
      "hello there" 100).2 (by decide) (by decide)⟩

/-- C7: with the spam rule enabled, check_spam flags a message exactly when
(a) it equals, case-sensitively, an entry of the recent-message history, or
(b) it has more than 3 whitespace-delimited tokens with a distinct-to-total
ratio below 0.3 (rendered exactly as 10 * distinct < 3 * total), or (c) it
has 2 to 3 tokens that are all identical (one distinct token); moreover the
same exact message sent twice in a row by one user puts Spam into the
second decision. -/
theorem check_spam_iff :
    (∀ (s : PluginState) (uid msg : String),
      s.config.spam_detection_enabled = true →
      (check_spam s uid msg = true ↔
        (msg ∈ (getUser s uid).recent_messages ∨
         (3 < (pyWords msg).length ∧
           10 * distinctCount (pyWords msg) < 3 * (pyWords msg).length) ∨
         (2 ≤ (pyWords msg).length ∧ (pyWords msg).length ≤ 3 ∧
           distinctCount (pyWords msg) = 1)))) ∧
    ViolationType.spam ∈
      (moderate_message
        (moderate_message initial_state "u7" "Check this out!" 100).2
        "u7" "Check this out!" 101).1.violations := by
  constructor
  · intro s uid msg hen
    simp only [check_spam, hen, Bool.not_true, Bool.false_eq_true, if_false]
    split_ifs with h1 h2 h3
    · exact iff_of_true rfl (Or.inl h1)
    · exact iff_of_true rfl (Or.inr (Or.inl h2))
    · refine iff_of_true rfl (Or.inr (Or.inr ⟨?_, h3.1, h3.2.1⟩))
      omega
    · refine iff_of_false (by simp) ?_
      rintro (h | h | h)
      · exact h1 h
      · exact h2 h
      · refine h3 ⟨h.2.1, h.2.2, ?_⟩
        omega
  · decide

/-- Witness for C7 at a history that already holds the message. -/
theorem check_spam_iff_witness :
    check_spam spam_hist_state "u" "hello" = true ↔
      ("hello" ∈ (getUser spam_hist_state "u").recent_messages ∨
       (3 < (pyWords "hello").length ∧
         10 * distinctCount (pyWords "hello") < 3 * (pyWords "hello").length) ∨
       (2 ≤ (pyWords "hello").length ∧ (pyWords "hello").length ≤ 3 ∧
         distinctCount (pyWords "hello") = 1)) :=
  check_spam_iff.1 spam_hist_state "u" "hello" (by decide)

theorem countP_partition {α : Type} (p : α → Bool) (l : List α) :
    l.countP p + l.countP (fun a => !p a) = l.length := by
  induction l with
  | nil => rfl
  | cons a l ih =>
    by_cases h : p a = true <;> simp [List.countP_cons, h] <;> omega

/-- C8: with the caps rule enabled, every message shorter than the
configured minimum is never flagged; a message of at least that length is
flagged exactly when caps/len*100 strictly exceeds the threshold (rendered
exactly as max * len < 100 * caps); the numerator counts only uppercase
letters while every character, including digits and punctuation, counts in
the denominator. -/
theorem caps_abuse_spec (cfg : Config) (msg : String)
    (hen : cfg.caps_abuse_enabled = true) :
    (msg.length < cfg.caps_abuse_min_message_length →
      check_caps_abuse cfg msg = false) ∧
    (cfg.caps_abuse_min_message_length ≤ msg.length →
      (check_caps_abuse cfg msg = true ↔
        cfg.caps_abuse_max_caps_percentage * msg.length
          < 100 * capsCount msg)) ∧
    capsCount msg + msg.data.countP (fun c => !c.isUpper) = msg.length := by
  refine ⟨?_, ?_, ?_⟩
  · intro h
    simp [check_caps_abuse, hen, h]
  · intro h
    simp [check_caps_abuse, hen, Nat.not_lt.mpr h]
  · exact countP_partition (fun c => c.isUpper) msg.data

/-- Witness for C8 at the all-caps message of the spec scenario. -/
theorem caps_abuse_spec_witness :
    default_config.caps_abuse_min_message_length ≤
      ("THIS IS REALLY ANNOYING WHEN PEOPLE TYPE LIKE THIS" : String).length ∧
    (check_caps_abuse default_config
        "THIS IS REALLY ANNOYING WHEN PEOPLE TYPE LIKE THIS" = true ↔
      default_config.caps_abuse_max_caps_percentage *
          ("THIS IS REALLY ANNOYING WHEN PEOPLE TYPE LIKE THIS" : String).length
        < 100 * capsCount "THIS IS REALLY ANNOYING WHEN PEOPLE TYPE LIKE THIS")
    := by
  refine ⟨by decide, ?_⟩
  exact (caps_abuse_spec default_config
    "THIS IS REALLY ANNOYING WHEN PEOPLE TYPE LIKE THIS" (by decide)).2.1
    (by decide)

theorem clean_user_idem (u : UserStatus) (now : Int) :
    clean_user (clean_user u now) now = clean_user u now := by
  by_cases h1 : (u.is_muted && expiry_reached u.mute_until now) = true <;>
    by_cases h2 : (u.is_banned && expiry_reached u.ban_until now) = true <;>
      simp [clean_user, h1, h2]

theorem clean_user_mute_expired (u : UserStatus) (now t : Int)
    (h1 : u.is_muted = true) (h2 : u.mute_until = some t) (h3 : t ≤ now) :
    (clean_user u now).is_muted = false ∧
    (clean_user u now).mute_until = none := by
  have hc : (u.is_muted && expiry_reached u.mute_until now) = true := by
    simp [h1, h2, expiry_reached, h3]
  simp only [clean_user, hc, if_true]
  split_ifs <;> simp

theorem clean_user_ban_expired (u : UserStatus) (now t : Int)
    (h1 : u.is_banned = true) (h2 : u.ban_until = some t) (h3 : t ≤ now) :
    (clean_user u now).is_banned = false ∧
    (clean_user u now).ban_until = none := by
  have hc : expiry_reached u.ban_until now = true := by
    simp [h2, expiry_reached, h3]
  by_cases hm : (u.is_muted && expiry_reached u.mute_until now) = true <;>
    simp [clean_user, hm, h1, hc]

/-- C9: the sweep clears an expired mute (flag and expiry together) and an
expired ban likewise; the user-status view read afterwards reports
isMuted = false, respectively isBanned = false; and sweeping again at the
same instant is the identity on the already-swept state. -/
theorem sweep_clears_reports_and_idempotent (s : PluginState) (now : Int)
    (uid : String) :
    ((getUser s uid).is_muted = true →
      ∀ t, (getUser s uid).mute_until = some t → t ≤ now →
        (((cleanup_expired_punishments s now).users uid).is_muted = false ∧
         ((cleanup_expired_punishments s now).users uid).mute_until = none ∧
         (api_get_user_status (cleanup_expired_punishments s now) uid).is_muted
           = false)) ∧
    ((getUser s uid).is_banned = true →
      ∀ t, (getUser s uid).ban_until = some t → t ≤ now →
        (((cleanup_expired_punishments s now).users uid).is_banned = false ∧
         ((cleanup_expired_punishments s now).users uid).ban_until = none ∧
         (api_get_user_status (cleanup_expired_punishments s now) uid).is_banned
           = false)) ∧
    cleanup_expired_punishments (cleanup_expired_punishments s now) now =
      cleanup_expired_punishments s now := by
  refine ⟨?_, ?_, ?_⟩
  · intro h1 t h2 h3
    have h := clean_user_mute_expired (s.users uid) now t h1 h2 h3
    exact ⟨h.1, h.2, h.1⟩
  · intro h1 t h2 h3
    have h := clean_user_ban_expired (s.users uid) now t h1 h2 h3
    exact ⟨h.1, h.2, h.1⟩
  · simp [cleanup_expired_punishments, clean_user_idem]

/-- Witness for C9 at a user whose mute and ban are both expired. -/
theorem sweep_clears_witness :
    (((cleanup_expired_punishments expired_state 100).users "bob").is_muted
        = false ∧
     ((cleanup_expired_punishments expired_state 100).users "bob").mute_until
        = none ∧
     (api_get_user_status (cleanup_expired_punishments expired_state 100)
        "bob").is_muted = false) ∧
    (((cleanup_expired_punishments expired_state 100).users "bob").is_banned
        = false ∧
     ((cleanup_expired_punishments expired_state 100).users "bob").ban_until
        = none ∧
     (api_get_user_status (cleanup_expired_punishments expired_state 100)
        "bob").is_banned = false) ∧
    cleanup_expired_punishments
        (cleanup_expired_punishments expired_state 100) 100 =
      cleanup_expired_punishments expired_state 100 :=
  ⟨(sweep_clears_reports_and_idempotent expired_state 100 "bob").1
      (by decide) 50 (by decide) (by decide),
   (sweep_clears_reports_and_idempotent expired_state 100 "bob").2.1
      (by decide) 60 (by decide) (by decide),
   (sweep_clears_reports_and_idempotent expired_state 100 "bob").2.2⟩

/-- C10: the built-in default configuration has no whitelist key, so under
it every API moderate_message call carrying a nonempty role list hits the
missing-key read and raises KeyError (modelled as none) instead of
returning a decision; the bypass check only runs to completion when the
whitelist section and the keys the path reads are present. -/
theorem default_config_roles_keyerror :
    default_config.whitelist = none ∧
    (∀ (s : PluginState) (uid msg : String) (roles : List String) (now : Int),
      s.config = default_config → roles ≠ [] →
      api_moderate_message s uid msg roles now = none) ∧
    (∀ (cfg : Config) (w : WhitelistSection) (e : Bool)
        (mrs roles : List String),
      cfg.whitelist = some w → w.enabled = some e →
      w.moderator_roles = some mrs →
      ∃ b, has_bypass_permission cfg roles = some b) := by
  refine ⟨rfl, ?_, ?_⟩
  · intro s uid msg roles now hcfg hr
    have hne : roles.isEmpty = false := by simp [List.isEmpty_iff, hr]
    simp [api_moderate_message, hne, has_bypass_permission, hcfg,
      default_config]
  · intro cfg w e mrs roles h1 h2 h3
    cases e
    · exact ⟨false, by simp [has_bypass_permission, h1, h2]⟩
    · exact ⟨roles.any fun role => mrs.contains role,
        by simp [has_bypass_permission, h1, h2, h3]⟩

/-- Witness for C10 at a concrete call with a nonempty role list. -/
theorem default_config_roles_keyerror_witness :
    api_moderate_message initial_state "u10" "hi" ["admin"] 0 = none :=
  default_config_roles_keyerror.2.1 initial_state "u10" "hi" ["admin"] 0
    rfl (by decide)

end ChatMod
